import Mathlib

/-!
Verification development for the penpot-mcp repository.

Covered here:
- the Plugin Task Bridge core (task registry, connection lifecycle,
  dispatch) — modelled from the specification, since the bridge sources
  (PenpotMcpServer, the registry and the transport) are not among the
  available tool-layer sources;
- the argument validation of ComponentLibraryManagerTool.executeCore;
- the CLI port-argument parsing of the penpot-mcp entry point;
- the CSS color parsing of CreateShapeFromCssTool.parseColor.
-/

namespace PenpotMcp

namespace Bridge

/-- Modelled from the spec: the error taxonomy of section 7 together with
the success status. NotConnected, Disconnected, Timeout, RemoteError and
TransportError are the distinct observable failure statuses of the bridge;
the sources for the bridge itself are not available, only its spec. -/
inductive TaskStatus where
  | ok
  | notConnected
  | disconnected
  | timeout
  | remoteError
  | transportError
deriving DecidableEq, Repr

/-- Modelled from the spec: terminal outcome of a Task. `data` is present
only on success (for execute-code an arbitrary JSON value or undefined,
held here as an opaque optional string); `errorMessage` accompanies the
failure statuses. -/
structure TaskResult where
  status : TaskStatus
  data : Option String
  errorMessage : Option String
deriving DecidableEq, Repr

/-- Modelled from the spec: the result returned when no plugin connection
is Ready at dispatch time. -/
def notConnectedResult : TaskResult :=
  ⟨TaskStatus.notConnected, none, some "No Penpot plugin instances are currently connected"⟩

/-- Modelled from the spec: the result produced when a deadline elapses
with no reply. -/
def timeoutResult : TaskResult :=
  ⟨TaskStatus.timeout, none, some "Task timeout"⟩

/-- Modelled from the spec: the result produced when the connection drops
after dispatch and before the reply. -/
def disconnectedResult (reason : String) : TaskResult :=
  ⟨TaskStatus.disconnected, none, some reason⟩

/-- Modelled from the spec: the result produced when a send fails for a
reason other than the connection being absent. -/
def transportErrorResult (reason : String) : TaskResult :=
  ⟨TaskStatus.transportError, none, some reason⟩

/-- Modelled from the spec: the registry's bookkeeping record for an
in-flight task — correlation id, the connection the task was sent to and
the absolute deadline. -/
structure PendingEntry where
  taskId : Nat
  connectionId : Nat
  deadline : Nat
deriving DecidableEq, Repr

/-- Modelled from the spec: the Task Registry. `entries` holds the
in-flight (pending) entries; `resolved` records every terminal resolution
handed back to a waiting caller, newest first. -/
structure Registry where
  entries : List PendingEntry
  resolved : List (Nat × TaskResult)
deriving DecidableEq, Repr

/-- True when the task id has a pending entry. -/
def Registry.pending (reg : Registry) (t : Nat) : Bool :=
  reg.entries.any (fun e => e.taskId == t)

/-- Result delivered for the task id, when it has been resolved. -/
def Registry.lookupResolved (reg : Registry) (t : Nat) : Option TaskResult :=
  (reg.resolved.find? (fun p => p.1 == t)).map Prod.snd

/-- Number of terminal resolutions recorded for the task id. -/
def Registry.resCount (reg : Registry) (t : Nat) : Nat :=
  (reg.resolved.filter (fun p => p.1 == t)).length

/-- Modelled from the spec: `resolve(taskId, result) → bool` — true if this
call actually completed the entry, false if it was already completed.
Completing removes the pending entry and records the delivered result. -/
def Registry.resolve (reg : Registry) (t : Nat) (r : TaskResult) : Bool × Registry :=
  if reg.entries.any (fun e => e.taskId == t) then
    (true, ⟨reg.entries.filter (fun e => e.taskId != t), (t, r) :: reg.resolved⟩)
  else
    (false, reg)

/-- Resolves every task id of the list, in order, with the same result;
each individual resolution goes through `Registry.resolve` and is hence an
idempotent no-op when the entry is already completed. -/
def resolveMany (reg : Registry) (ts : List Nat) (r : TaskResult) : Registry :=
  ts.foldl (fun acc t => (acc.resolve t r).2) reg

/-- Modelled from the spec: `failAllForConnection(connectionId, reason)`
resolves every pending entry bound to that connection with status
Disconnected. -/
def Registry.failAllForConnection (reg : Registry) (c : Nat) (reason : String) : Registry :=
  resolveMany reg ((reg.entries.filter (fun e => e.connectionId == c)).map PendingEntry.taskId)
    (disconnectedResult reason)

/-- Modelled from the spec: `sweepExpired(now)` resolves every entry whose
deadline has passed with status Timeout. -/
def Registry.sweepExpired (reg : Registry) (now : Nat) : Registry :=
  resolveMany reg ((reg.entries.filter (fun e => e.deadline < now)).map PendingEntry.taskId)
    timeoutResult

/-- Modelled from the spec: `register(taskId, connectionId, deadline)` —
fails (programmer error) when the task id is already registered. -/
def Registry.register (reg : Registry) (e : PendingEntry) : Option Registry :=
  if reg.entries.any (fun x => x.taskId == e.taskId) then none
  else some ⟨e :: reg.entries, reg.resolved⟩

/-- Modelled from the spec: the connection state machine of the Connection
Lifecycle Manager. -/
inductive ConnState where
  | connecting
  | ready
  | closed
deriving DecidableEq, Repr

/-- Modelled from the spec: a live transport-level session with one plugin
runtime instance. -/
structure PluginConnection where
  connectionId : Nat
  state : ConnState
deriving DecidableEq, Repr

/-- Connections that completed the handshake and may receive tasks. -/
def readyConnections (conns : List PluginConnection) : List PluginConnection :=
  conns.filter (fun c => c.state == ConnState.ready)

/-- Modelled from the spec: the asynchronous events that can race with a
dispatched task — a correlated reply, a timeout sweep, a connection drop. -/
inductive BridgeEvent where
  | reply (taskId : Nat) (result : TaskResult)
  | sweep (now : Nat)
  | disconnect (connId : Nat)
deriving DecidableEq, Repr

/-- Effect of one asynchronous event on the registry. -/
def stepEvent (reg : Registry) : BridgeEvent → Registry
  | BridgeEvent.reply t r => (reg.resolve t r).2
  | BridgeEvent.sweep now => reg.sweepExpired now
  | BridgeEvent.disconnect c => reg.failAllForConnection c "Plugin connection closed"

/-- Effect of a finite schedule of asynchronous events on the registry. -/
def runEvents (reg : Registry) (evs : List BridgeEvent) : Registry :=
  evs.foldl stepEvent reg

/-- Modelled from the spec: the possible outcomes of the Transport
Endpoint `send` primitive — delivered, ConnectionNotFound (the connection
just dropped), or a transport-level failure such as a framing error. -/
inductive SendOutcome where
  | delivered
  | connectionNotFound
  | transportFailure
deriving DecidableEq, Repr

/-- Modelled from the spec: the caller-facing default timeout of 30
seconds. -/
def defaultTimeoutMs : Nat := 30000

/-- Fresh correlation id: strictly larger than every id currently present
in the registry, pending or resolved, hence colliding with none of them. -/
def freshTaskId (reg : Registry) : Nat :=
  (reg.entries.map PendingEntry.taskId ++ reg.resolved.map Prod.fst).foldr max 0 + 1

/-- Modelled from the spec: the synchronous part of
`dispatch(task, timeout)` — select a Ready connection (failing immediately
with NotConnected when none is Ready, without registering anything),
generate a fresh correlation id, register the pending entry with deadline
now + timeout (default 30000 ms), and send. A failed send immediately
resolves the entry (Disconnected when the connection vanished,
TransportError otherwise) and returns that result without waiting; a
delivered send leaves the caller awaiting the entry. The `register` none
branch is unreachable because the generated id is fresh; the spec treats a
duplicate registration as a programmer error. -/
def dispatchStart (reg : Registry) (conns : List PluginConnection) (now : Nat)
    (timeoutMs : Option Nat) (send : SendOutcome) : Registry × (TaskResult ⊕ PendingEntry) :=
  match readyConnections conns with
  | [] => (reg, Sum.inl notConnectedResult)
  | c :: _ =>
    let tid := freshTaskId reg
    let entry : PendingEntry := ⟨tid, c.connectionId, now + timeoutMs.getD defaultTimeoutMs⟩
    match reg.register entry with
    | none => (reg, Sum.inl (transportErrorResult "internal error: duplicate correlation id"))
    | some reg1 =>
      match send with
      | SendOutcome.delivered => (reg1, Sum.inr entry)
      | SendOutcome.connectionNotFound =>
        let r := disconnectedResult "Plugin connection closed"
        ((reg1.resolve tid r).2, Sum.inl r)
      | SendOutcome.transportFailure =>
        let r := transportErrorResult "Transport send failed"
        ((reg1.resolve tid r).2, Sum.inl r)

/-- Modelled from the spec: the complete caller-facing
`dispatch(task, timeout) → TaskResult`. Immediate failures are returned at
once; otherwise the caller blocks until the entry reaches a terminal
state, which the bridge bounds by its own timeout sweep at the deadline:
the result the caller receives is the resolution recorded for the task
after the schedule of asynchronous events, the bridge sweep included. -/
def dispatchRun (reg : Registry) (conns : List PluginConnection) (now : Nat)
    (timeoutMs : Option Nat) (send : SendOutcome) (evs : List BridgeEvent) : TaskResult :=
  match dispatchStart reg conns now timeoutMs send with
  | (_, Sum.inl r) => r
  | (reg1, Sum.inr entry) =>
    ((runEvents reg1 (evs ++ [BridgeEvent.sweep (entry.deadline + 1)])).lookupResolved
      entry.taskId).getD timeoutResult

/-- A task id is alive (pending) or done (its delivered result is on
record); this disjunction is what guarantees a caller can never be left
with neither a pending entry nor a result. -/
def Registry.aliveOrDone (reg : Registry) (t : Nat) : Prop :=
  reg.pending t = true ∨ (reg.lookupResolved t).isSome = true

/-- Invariant backing the exactly-once guarantee: a task id has at most
one recorded terminal resolution, and while it is still pending it has
none. -/
def Registry.resolvedOnceInv (reg : Registry) (t : Nat) : Prop :=
  reg.resCount t ≤ 1 ∧ (reg.pending t = true → reg.resCount t = 0)

/-- Failure statuses of the bridge taxonomy, as a list so that their
pairwise distinguishability can be stated. -/
def failureStatuses : List TaskStatus :=
  [TaskStatus.notConnected, TaskStatus.disconnected, TaskStatus.timeout,
    TaskStatus.remoteError, TaskStatus.transportError]

end Bridge

namespace ComponentLibraryManager

/-- JavaScript string truthiness for an optional string argument: absent
(undefined) and the empty string are falsy. -/
def strFalsy : Option String → Bool
  | none => true
  | some s => s.isEmpty

/-- The check of createComponent: absent array or empty array. In
JavaScript an empty array is truthy, so the source tests both
`!args.shapeIds` and `args.shapeIds.length === 0`. -/
def shapeIdsMissing : Option (List String) → Bool
  | none => true
  | some l => l.isEmpty

/-- JavaScript `a || b` on optional strings: falls through to `b` when `a`
is absent or empty. -/
def jsOrStr (a b : Option String) : Option String :=
  if strFalsy a then b else a

/-- Hex digit character used by the \u escapes of JSON.stringify. -/
def hexDigitStr (n : Nat) : String := String.singleton (Nat.digitChar n)

/-- Escaping of one character as performed by JSON.stringify. -/
def jsonEscapeChar (c : Char) : String :=
  if c = '"' then "\\\""
  else if c = '\\' then "\\\\"
  else if c = '\n' then "\\n"
  else if c = '\r' then "\\r"
  else if c = '\t' then "\\t"
  else if c = '\x08' then "\\b"
  else if c = '\x0c' then "\\f"
  else if c.toNat < 32 then "\\u00" ++ hexDigitStr (c.toNat / 16) ++ hexDigitStr (c.toNat % 16)
  else String.singleton c

/-- JSON.stringify of a string value. -/
def jsonStringifyStr (s : String) : String :=
  "\"" ++ String.join (s.data.map jsonEscapeChar) ++ "\""

/-- JSON.stringify of an array of strings. -/
def jsonStringifyList (l : List String) : String :=
  "[" ++ String.intercalate "," (l.map jsonStringifyStr) ++ "]"

/-- Join of the template lines of a JavaScript template literal. -/
def jl (lines : List String) : String := String.intercalate "\n" lines

/-- Filter options of the list operation. -/
structure ComponentFilter where
  namePattern : Option String
  path : Option String
deriving DecidableEq, Repr

/-- Properties accepted by the update operation. -/
structure ComponentUpdates where
  name : Option String
deriving DecidableEq, Repr

/-- Operation discriminator of ComponentLibraryManagerArgs. -/
inductive Operation where
  | create
  | list
  | delete
  | sync
  | detach
  | getInstances
  | getStats
  | update
deriving DecidableEq, Repr

/-- Arguments class for ComponentLibraryManagerTool. -/
structure ComponentLibraryManagerArgs where
  operation : Operation
  shapeIds : Option (List String)
  componentId : Option String
  instanceId : Option String
  name : Option String
  filter : Option ComponentFilter
  updates : Option ComponentUpdates
deriving DecidableEq, Repr

/-- Outcome of executeCore: either a direct TextResponse, or the
submission of an ExecuteCodePluginTask with the given code to the plugin
bridge (the executePluginCode helper). -/
inductive ToolAction where
  | respond (text : String)
  | runPlugin (code : String)
deriving DecidableEq, Repr

/-- Creates a component from the specified shapes. -/
def createComponent (args : ComponentLibraryManagerArgs) : ToolAction :=
  if shapeIdsMissing args.shapeIds then
    ToolAction.respond "Error: \x27shapeIds\x27 is required for \x27create\x27 operation"
  else
    let ids := jsonStringifyList (args.shapeIds.getD [])
    ToolAction.runPlugin (jl [
      "",
      "const shapeIds = " ++ ids ++ ";",
      "const shapes = shapeIds",
      "    .map(id => penpot.currentPage.findShapeById(id))",
      "    .filter(Boolean);",
      "",
      "if (shapes.length === 0) \x7b",
      "    throw new Error(\x27No valid shapes found with provided IDs: \x27 + " ++ ids
        ++ ".join(\x27, \x27));",
      "\x7d",
      "",
      "// Group if multiple shapes",
      "let shapesToComponent = shapes;",
      "if (shapes.length > 1) \x7b",
      "    const group = penpot.group(shapes);",
      "    shapesToComponent = [group];",
      "\x7d",
      "",
      "// Create component",
      "const component = penpot.library.local.createComponent(shapesToComponent);",
      (if strFalsy args.name then ""
        else "component.name = " ++ jsonStringifyStr (args.name.getD "") ++ ";"),
      "",
      "return \x7b",
      "    id: component.id,",
      "    name: component.name,",
      "    path: component.path,",
      "    shapeCount: shapes.length",
      "\x7d;",
      ""])

/-- Lists all components in the local library with optional filtering. -/
def listComponents (args : ComponentLibraryManagerArgs) : ToolAction :=
  let namePattern := args.filter.bind ComponentFilter.namePattern
  let pathFilter := args.filter.bind ComponentFilter.path
  ToolAction.runPlugin (jl [
    "",
    "const lib = penpot.library.local;",
    "let components = lib.components.map(c => (\x7b",
    "    id: c.id,",
    "    name: c.name,",
    "    path: c.path,",
    "    libraryId: c.libraryId",
    "\x7d));",
    "",
    (if strFalsy namePattern then ""
      else jl [
        "",
        "// Filter by name pattern",
        "const nameRegex = new RegExp(" ++ jsonStringifyStr (namePattern.getD "")
          ++ ", \x27i\x27);",
        "components = components.filter(c => nameRegex.test(c.name));",
        ""]),
    "",
    (if strFalsy pathFilter then ""
      else jl [
        "",
        "// Filter by path",
        "components = components.filter(c => c.path && c.path.includes("
          ++ jsonStringifyStr (pathFilter.getD "") ++ "));",
        ""]),
    "",
    "return \x7b",
    "    total: components.length,",
    "    components: components",
    "\x7d;",
    ""])

/-- Deletes a component from the library. -/
def deleteComponent (args : ComponentLibraryManagerArgs) : ToolAction :=
  if strFalsy args.componentId then
    ToolAction.respond "Error: \x27componentId\x27 is required for \x27delete\x27 operation"
  else
    ToolAction.runPlugin (jl [
      "",
      "const componentId = " ++ jsonStringifyStr (args.componentId.getD "") ++ ";",
      "const lib = penpot.library.local;",
      "const component = lib.components.find(c => c.id === componentId);",
      "",
      "if (!component) \x7b",
      "    throw new Error(\x27Component not found: \x27 + componentId);",
      "\x7d",
      "",
      "const componentName = component.name;",
      "",
      "// Find all instances on current page first (for reporting)",
      "const allShapes = penpot.currentPage.findShapes();",
      "const instances = allShapes.filter(shape => \x7b",
      "    if (!shape.isComponentInstance()) return false;",
      "    const c = shape.component();",
      "    return c && c.id === componentId;",
      "\x7d);",
      "",
      "// The Penpot API doesn\x27t have a direct deleteComponent method on Library",
      "// We need to detach all instances first, then the component becomes orphaned",
      "// Note: This is a workaround - actual deletion might require different API",
      "",
      "return \x7b",
      "    deleted: componentName,",
      "    componentId: componentId,",
      "    instanceCount: instances.length,",
      "    note: \x27Component marked for deletion. Instances will become regular shapes.\x27",
      "\x7d;",
      ""])

/-- Syncs all instances of a component with the main component. -/
def syncInstances (args : ComponentLibraryManagerArgs) : ToolAction :=
  if strFalsy args.componentId then
    ToolAction.respond "Error: \x27componentId\x27 is required for \x27sync\x27 operation"
  else
    ToolAction.runPlugin (jl [
      "",
      "const componentId = " ++ jsonStringifyStr (args.componentId.getD "") ++ ";",
      "const lib = penpot.library.local;",
      "const component = lib.components.find(c => c.id === componentId);",
      "",
      "if (!component) \x7b",
      "    throw new Error(\x27Component not found: \x27 + componentId);",
      "\x7d",
      "",
      "// Find all instances on current page",
      "const allShapes = penpot.currentPage.findShapes();",
      "const instances = allShapes.filter(shape => \x7b",
      "    if (!shape.isComponentInstance()) return false;",
      "    const c = shape.component();",
      "    return c && c.id === componentId;",
      "\x7d);",
      "",
      "// Sync each instance (if syncComponent method exists)",
      "let syncedCount = 0;",
      "instances.forEach(instance => \x7b",
      "    // The instance should automatically sync with its main component",
      "    // In Penpot, changes to the main component propagate automatically",
      "    // This is more of a verification/forcing of that sync",
      "    syncedCount++;",
      "\x7d);",
      "",
      "return \x7b",
      "    componentName: component.name,",
      "    componentId: component.id,",
      "    instancesFound: instances.length,",
      "    syncedCount: syncedCount,",
      "    note: \x27Instances are synced with the main component\x27",
      "\x7d;",
      ""])

/-- Detaches an instance from its component. -/
def detachInstance (args : ComponentLibraryManagerArgs) : ToolAction :=
  if strFalsy args.instanceId then
    ToolAction.respond "Error: \x27instanceId\x27 is required for \x27detach\x27 operation"
  else
    ToolAction.runPlugin (jl [
      "",
      "const instanceId = " ++ jsonStringifyStr (args.instanceId.getD "") ++ ";",
      "const instance = penpot.currentPage.findShapeById(instanceId);",
      "",
      "if (!instance) \x7b",
      "    throw new Error(\x27Shape not found: \x27 + instanceId);",
      "\x7d",
      "",
      "if (!instance.isComponentInstance()) \x7b",
      "    throw new Error(\x27Shape is not a component instance: \x27 + instanceId);",
      "\x7d",
      "",
      "const componentName = instance.component()?.name;",
      "",
      "// Detach from component",
      "instance.detach();",
      "",
      "return \x7b",
      "    instanceId: instanceId,",
      "    wasComponent: componentName,",
      "    status: \x27detached\x27,",
      "    note: \x27Shape is now independent from component\x27",
      "\x7d;",
      ""])

/-- Gets all instances of a component. -/
def getInstances (args : ComponentLibraryManagerArgs) : ToolAction :=
  if strFalsy args.componentId then
    ToolAction.respond "Error: \x27componentId\x27 is required for \x27getInstances\x27 operation"
  else
    ToolAction.runPlugin (jl [
      "",
      "const componentId = " ++ jsonStringifyStr (args.componentId.getD "") ++ ";",
      "const allShapes = penpot.currentPage.findShapes();",
      "",
      "const instances = allShapes",
      "    .filter(shape => \x7b",
      "        if (!shape.isComponentInstance()) return false;",
      "        const c = shape.component();",
      "        return c && c.id === componentId;",
      "    \x7d)",
      "    .map(inst => \x7b",
      "        const comp = inst.component();",
      "        return \x7b",
      "            shapeId: inst.id,",
      "            shapeName: inst.name,",
      "            componentName: comp?.name,",
      "            componentId: comp?.id,",
      "            isMain: inst.isComponentMainInstance(),",
      "            x: inst.x,",
      "            y: inst.y,",
      "            width: inst.width,",
      "            height: inst.height",
      "        \x7d;",
      "    \x7d);",
      "",
      "return \x7b",
      "    componentId: componentId,",
      "    instanceCount: instances.length,",
      "    instances: instances",
      "\x7d;",
      ""])

/-- Gets usage statistics for all components. -/
def getStats : ToolAction :=
  ToolAction.runPlugin (jl [
    "",
    "const allShapes = penpot.currentPage.findShapes();",
    "const components = penpot.library.local.components;",
    "",
    "const stats = components.map(comp => \x7b",
    "    const instances = allShapes.filter(shape => \x7b",
    "        if (!shape.isComponentInstance()) return false;",
    "        const c = shape.component();",
    "        return c && c.id === comp.id;",
    "    \x7d);",
    "",
    "    return \x7b",
    "        name: comp.name,",
    "        id: comp.id,",
    "        path: comp.path,",
    "        instanceCount: instances.length,",
    "        locations: instances.map(i => (\x7b",
    "            shapeId: i.id,",
    "            shapeName: i.name,",
    "            x: i.x,",
    "            y: i.y",
    "        \x7d))",
    "    \x7d;",
    "\x7d);",
    "",
    "// Find unused components",
    "const unusedComponents = stats.filter(s => s.instanceCount === 0);",
    "",
    "return \x7b",
    "    totalComponents: components.length,",
    "    totalInstances: stats.reduce((sum, s) => sum + s.instanceCount, 0),",
    "    unusedCount: unusedComponents.length,",
    "    componentStats: stats,",
    "    unusedComponents: unusedComponents.map(c => (\x7b name: c.name, id: c.id \x7d))",
    "\x7d;",
    ""])

/-- Updates component properties. -/
def updateComponent (args : ComponentLibraryManagerArgs) : ToolAction :=
  if strFalsy args.componentId then
    ToolAction.respond "Error: \x27componentId\x27 is required for \x27update\x27 operation"
  else if args.updates.isNone && strFalsy args.name then
    ToolAction.respond "Error: \x27updates\x27 or \x27name\x27 is required for \x27update\x27 operation"
  else
    let newName := jsOrStr (args.updates.bind ComponentUpdates.name) args.name
    ToolAction.runPlugin (jl [
      "",
      "const componentId = " ++ jsonStringifyStr (args.componentId.getD "") ++ ";",
      "const lib = penpot.library.local;",
      "const component = lib.components.find(c => c.id === componentId);",
      "",
      "if (!component) \x7b",
      "    throw new Error(\x27Component not found: \x27 + componentId);",
      "\x7d",
      "",
      "const oldName = component.name;",
      (if strFalsy newName then ""
        else "component.name = " ++ jsonStringifyStr (newName.getD "") ++ ";"),
      "",
      "return \x7b",
      "    componentId: componentId,",
      "    oldName: oldName,",
      "    newName: component.name,",
      "    path: component.path,",
      "    updated: true",
      "\x7d;",
      ""])

/-- Dispatch of executeCore over the operation discriminator. -/
def executeCore (args : ComponentLibraryManagerArgs) : ToolAction :=
  match args.operation with
  | Operation.create => createComponent args
  | Operation.list => listComponents args
  | Operation.delete => deleteComponent args
  | Operation.sync => syncInstances args
  | Operation.detach => detachInstance args
  | Operation.getInstances => getInstances args
  | Operation.getStats => getStats
  | Operation.update => updateComponent args

end ComponentLibraryManager

/-- JavaScript whitespace (the WhiteSpace and LineTerminator productions,
by code point): used by String.prototype.trim, by parseInt leading-space
skipping and by the regex class backslash-s. -/
def isJsWhitespace (c : Char) : Bool :=
  decide (c.toNat = 9 ∨ c.toNat = 10 ∨ c.toNat = 11 ∨ c.toNat = 12 ∨ c.toNat = 13 ∨
    c.toNat = 32 ∨ c.toNat = 160 ∨ c.toNat = 5760 ∨ (8192 ≤ c.toNat ∧ c.toNat ≤ 8202) ∨
    c.toNat = 8232 ∨ c.toNat = 8233 ∨ c.toNat = 8239 ∨ c.toNat = 8287 ∨ c.toNat = 12288 ∨
    c.toNat = 65279)

/-- Decimal digit, the regex class backslash-d. -/
def isAsciiDigit (c : Char) : Bool :=
  decide (48 ≤ c.toNat ∧ c.toNat ≤ 57)

/-- Value of a list of decimal digit characters, most significant first. -/
def decDigitsVal (ds : List Char) : Nat :=
  ds.foldl (fun a c => a * 10 + (c.toNat - 48)) 0

namespace Cli

/-- Value of the leading run of decimal digits; none when there is no
leading digit (the parseInt NaN case). -/
def leadingDigitsVal (cs : List Char) : Option Nat :=
  let ds := cs.takeWhile isAsciiDigit
  if ds.isEmpty then none else some (decDigitsVal ds)

/-- JavaScript parseInt(s, 10): skip leading whitespace, read an optional
sign, then the longest leading run of decimal digits; NaN (none) when no
digit follows. -/
def jsParseInt10 (s : String) : Option Int :=
  match s.data.dropWhile isJsWhitespace with
  | '+' :: rest => (leadingDigitsVal rest).map Int.ofNat
  | '-' :: rest => (leadingDigitsVal rest).map (fun n => -(n : Int))
  | rest => (leadingDigitsVal rest).map Int.ofNat

/-- The three server ports selected by the CLI entry point. -/
structure Ports where
  port : Int
  wsPort : Int
  replPort : Int
deriving DecidableEq, Repr

/-- Defaults of the CLI entry point: HTTP/SSE 4401, WebSocket 4402,
REPL 4403. -/
def defaultPorts : Ports := ⟨4401, 4402, 4403⟩

/-- Range check applied to every parsed port value. -/
def validRange (n : Int) : Bool := decide (0 < n ∧ n ≤ 65535)

/-- The argument-parsing loop of main(): mirrors the for loop over
process.argv.slice(2). A flag with a valid port value consumes the value;
an invalid value is not consumed and is reprocessed as the next argument;
log-level and log-dir consume one value; help and version terminate the
process before a server is constructed (none). -/
def parseLoop : List String → Ports → Option Ports
  | [], st => some st
  | a :: rest, st =>
    if a = "--port" ∨ a = "-p" then
      match rest with
      | [] => some st
      | v :: rest2 =>
        match jsParseInt10 v with
        | some n =>
          if validRange n then parseLoop rest2 { st with port := n }
          else parseLoop (v :: rest2) st
        | none => parseLoop (v :: rest2) st
    else if a = "--ws-port" then
      match rest with
      | [] => some st
      | v :: rest2 =>
        match jsParseInt10 v with
        | some n =>
          if validRange n then parseLoop rest2 { st with wsPort := n }
          else parseLoop (v :: rest2) st
        | none => parseLoop (v :: rest2) st
    else if a = "--repl-port" then
      match rest with
      | [] => some st
      | v :: rest2 =>
        match jsParseInt10 v with
        | some n =>
          if validRange n then parseLoop rest2 { st with replPort := n }
          else parseLoop (v :: rest2) st
        | none => parseLoop (v :: rest2) st
    else if a = "--log-level" ∨ a = "-l" then
      match rest with
      | [] => some st
      | _ :: rest2 => parseLoop rest2 st
    else if a = "--log-dir" then
      match rest with
      | [] => some st
      | _ :: rest2 => parseLoop rest2 st
    else if a = "--help" ∨ a = "-h" then none
    else if a = "--version" ∨ a = "-v" then none
    else parseLoop rest st

/-- Ports handed to the PenpotMcpServer constructor by main(), when the
process reaches the construction at all. -/
def mainServerPorts (args : List String) : Option Ports :=
  parseLoop args defaultPorts

/-- True when the string parses to an integer in (0, 65535]. -/
def validPortArg (s : String) : Bool :=
  match jsParseInt10 s with
  | some n => validRange n
  | none => false

/-- Matches the HTTP/SSE port flag. -/
def isPortFlag (a : String) : Bool := a == "--port" || a == "-p"

/-- Matches the WebSocket port flag. -/
def isWsPortFlag (a : String) : Bool := a == "--ws-port"

/-- Matches the REPL port flag. -/
def isReplPortFlag (a : String) : Bool := a == "--repl-port"

/-- True when no occurrence of the flag is directly followed by a valid
port value. -/
def noValidValueAfter (isFlag : String → Bool) : List String → Bool
  | [] => true
  | [_] => true
  | a :: b :: rest => (!(isFlag a) || !(validPortArg b)) && noValidValueAfter isFlag (b :: rest)

end Cli

namespace CreateShapeFromCss

/-- Skip of the regex fragment backslash-s star. -/
def skipSpaces (cs : List Char) : List Char := cs.dropWhile isJsWhitespace

/-- Match of the regex tail after the third channel: an optional alpha
group (comma, spaces, a nonempty run of digits and dots) and the closing
parenthesis; whatever follows the parenthesis is ignored, since the
pattern is unanchored. -/
def alphaTailMatches (cs : List Char) : Bool :=
  match cs with
  | ')' :: _ => true
  | ',' :: r =>
    let r2 := skipSpaces r
    let ds := r2.takeWhile (fun c => isAsciiDigit c || c == '.')
    (!ds.isEmpty) &&
      (match r2.drop ds.length with
        | ')' :: _ => true
        | _ => false)
  | _ => false

end CreateShapeFromCss

namespace Bridge

theorem le_foldr_max (l : List Nat) (x : Nat) (hx : x ∈ l) : x ≤ l.foldr max 0 := by
  induction l with
  | nil => cases hx
  | cons a l ih =>
    rcases List.mem_cons.mp hx with h | h
    · subst h; exact le_max_left _ _
    · exact le_trans (ih h) (le_max_right _ _)

theorem freshTaskId_not_entry (reg : Registry) (e : PendingEntry) (he : e ∈ reg.entries) :
    e.taskId ≠ freshTaskId reg := by
  have h : e.taskId ≤ (reg.entries.map PendingEntry.taskId ++ reg.resolved.map Prod.fst).foldr max 0 := by
    exact le_foldr_max _ _ (List.mem_append_left _ (List.mem_map_of_mem _ he))
  intro hc
  rw [hc] at h
  exact absurd h (by simp [freshTaskId])

theorem freshTaskId_not_resolved (reg : Registry) (p : Nat × TaskResult) (hp : p ∈ reg.resolved) :
    p.1 ≠ freshTaskId reg := by
  have h : p.1 ≤ (reg.entries.map PendingEntry.taskId ++ reg.resolved.map Prod.fst).foldr max 0 := by
    exact le_foldr_max _ _ (List.mem_append_right _ (List.mem_map_of_mem _ hp))
  intro hc
  rw [hc] at h
  exact absurd h (by simp [freshTaskId])

theorem freshTaskId_not_pending (reg : Registry) : reg.pending (freshTaskId reg) = false := by
  rw [Registry.pending, List.any_eq_false]
  intro e he
  simp only [beq_iff_eq]
  exact freshTaskId_not_entry reg e he

theorem resolve_of_pending (reg : Registry) (t : Nat) (r : TaskResult) (h : reg.pending t = true) :
    reg.resolve t r =
      (true, ⟨reg.entries.filter (fun e => e.taskId != t), (t, r) :: reg.resolved⟩) := by
  rw [Registry.pending] at h
  rw [Registry.resolve, if_pos h]

theorem resolve_of_not_pending (reg : Registry) (t : Nat) (r : TaskResult)
    (h : reg.pending t = false) : reg.resolve t r = (false, reg) := by
  rw [Registry.pending] at h
  rw [Registry.resolve, if_neg]
  simp [h]

theorem resolve_entries (reg : Registry) (t : Nat) (r : TaskResult) :
    ((reg.resolve t r).2).entries = reg.entries.filter (fun e => e.taskId != t) := by
  by_cases h : reg.pending t = true
  · rw [resolve_of_pending reg t r h]
  · have h0 : reg.pending t = false := by simpa using h
    rw [resolve_of_not_pending reg t r h0]
    rw [Registry.pending, List.any_eq_false] at h0
    have : ∀ e ∈ reg.entries, (e.taskId != t) = true := by
      intro e he
      simpa using h0 e he
    exact (List.filter_eq_self.mpr this).symm

theorem resolve_not_pending_self (reg : Registry) (t : Nat) (r : TaskResult) :
    ((reg.resolve t r).2).pending t = false := by
  rw [Registry.pending, List.any_eq_false]
  intro e he
  rw [resolve_entries] at he
  have := List.of_mem_filter he
  simpa using this

theorem resolve_pending_of_ne (reg : Registry) (t u : Nat) (r : TaskResult) (hne : u ≠ t) :
    ((reg.resolve t r).2).pending u = reg.pending u := by
  rw [Registry.pending, Registry.pending]
  by_cases h : reg.entries.any (fun e => e.taskId == u)
  · rw [h]
    rw [List.any_eq_true] at h
    rcases h with ⟨e, he, hbeq⟩
    rw [List.any_eq_true]
    refine ⟨e, ?_, hbeq⟩
    rw [resolve_entries, List.mem_filter]
    refine ⟨he, ?_⟩
    have : e.taskId = u := by simpa using hbeq
    simp [this, hne]
  · have h0 : reg.entries.any (fun e => e.taskId == u) = false := by simpa using h
    rw [h0]
    rw [List.any_eq_false] at h0
    rw [List.any_eq_false]
    intro e he
    rw [resolve_entries] at he
    exact h0 e (List.mem_of_mem_filter he)

theorem resolve_lookup_self (reg : Registry) (t : Nat) (r : TaskResult)
    (h : reg.pending t = true) : ((reg.resolve t r).2).lookupResolved t = some r := by
  rw [resolve_of_pending reg t r h]
  simp [Registry.lookupResolved]

theorem resolve_lookup_of_not_pending (reg : Registry) (t u : Nat) (r : TaskResult)
    (h : reg.pending t = false) :
    ((reg.resolve u r).2).lookupResolved t = reg.lookupResolved t := by
  by_cases hu : reg.pending u = true
  · rw [resolve_of_pending reg u r hu]
    have hne : u ≠ t := by
      intro hc; subst hc; rw [hu] at h; cases h
    simp [Registry.lookupResolved, List.find?_cons, hne]
  · have h0 : reg.pending u = false := by simpa using hu
    rw [resolve_of_not_pending reg u r h0]

theorem resolve_lookup_isSome (reg : Registry) (t u : Nat) (r : TaskResult)
    (h : (reg.lookupResolved t).isSome = true) :
    (((reg.resolve u r).2).lookupResolved t).isSome = true := by
  by_cases hu : reg.pending u = true
  · rw [resolve_of_pending reg u r hu]
    simp only [Registry.lookupResolved] at h ⊢
    rw [List.find?_cons]
    by_cases hut : ((u, r).1 == t) = true
    · simp [hut]
    · simp only [hut]
      simpa using h
  · have h0 : reg.pending u = false := by simpa using hu
    rw [resolve_of_not_pending reg u r h0]
    exact h

theorem resolveMany_nil (reg : Registry) (r : TaskResult) : resolveMany reg [] r = reg := rfl

theorem resolveMany_cons (reg : Registry) (t : Nat) (ts : List Nat) (r : TaskResult) :
    resolveMany reg (t :: ts) r = resolveMany ((reg.resolve t r).2) ts r := rfl

theorem resolveMany_entries_subset (reg : Registry) (ts : List Nat) (r : TaskResult) :
    ∀ e ∈ (resolveMany reg ts r).entries, e ∈ reg.entries := by
  induction ts generalizing reg with
  | nil => intro e he; exact he
  | cons t ts ih =>
    intro e he
    rw [resolveMany_cons] at he
    have := ih _ e he
    rw [resolve_entries] at this
    exact List.mem_of_mem_filter this

theorem resolveMany_pending_false (reg : Registry) (ts : List Nat) (r : TaskResult) (t : Nat)
    (h : reg.pending t = false) : (resolveMany reg ts r).pending t = false := by
  induction ts generalizing reg with
  | nil => exact h
  | cons u ts ih =>
    rw [resolveMany_cons]
    by_cases hu : u = t
    · subst hu; exact ih _ (resolve_not_pending_self reg u r)
    · refine ih _ ?_
      rw [resolve_pending_of_ne reg u t r (Ne.symm hu)]
      exact h

theorem resolveMany_lookup_of_not_pending (reg : Registry) (ts : List Nat) (r : TaskResult)
    (t : Nat) (h : reg.pending t = false) :
    (resolveMany reg ts r).lookupResolved t = reg.lookupResolved t := by
  induction ts generalizing reg with
  | nil => rfl
  | cons u ts ih =>
    rw [resolveMany_cons]
    have hp2 : ((reg.resolve u r).2).pending t = false := by
      by_cases hu : u = t
      · subst hu; exact resolve_not_pending_self reg u r
      · rw [resolve_pending_of_ne reg u t r (Ne.symm hu)]; exact h
    rw [ih _ hp2]
    exact resolve_lookup_of_not_pending reg t u r h

theorem resolveMany_lookup_of_mem (reg : Registry) (ts : List Nat) (r : TaskResult) (t : Nat)
    (hmem : t ∈ ts) (h : reg.pending t = true) :
    (resolveMany reg ts r).lookupResolved t = some r := by
  induction ts generalizing reg with
  | nil => cases hmem
  | cons u ts ih =>
    rw [resolveMany_cons]
    by_cases hu : u = t
    · subst hu
      rw [resolveMany_lookup_of_not_pending _ ts r u (resolve_not_pending_self reg u r)]
      exact resolve_lookup_self reg u r h
    · rcases List.mem_cons.mp hmem with hc | hc
      · exact absurd hc.symm hu
      · refine ih _ hc ?_
        rw [resolve_pending_of_ne reg u t r (Ne.symm hu)]
        exact h

theorem resolveMany_lookup_isSome (reg : Registry) (ts : List Nat) (r : TaskResult) (t : Nat)
    (h : (reg.lookupResolved t).isSome = true) :
    ((resolveMany reg ts r).lookupResolved t).isSome = true := by
  induction ts generalizing reg with
  | nil => exact h
  | cons u ts ih =>
    rw [resolveMany_cons]
    exact ih _ (resolve_lookup_isSome reg t u r h)

theorem resolveMany_resolved_length (reg : Registry) (ts : List Nat) (r : TaskResult)
    (hnd : ts.Nodup) (hall : ∀ t ∈ ts, reg.pending t = true) :
    (resolveMany reg ts r).resolved.length = ts.length + reg.resolved.length := by
  induction ts generalizing reg with
  | nil => simp [resolveMany_nil]
  | cons u ts ih =>
    rw [resolveMany_cons]
    have hnd2 := (List.nodup_cons.mp hnd)
    have hall2 : ∀ t ∈ ts, ((reg.resolve u r).2).pending t = true := by
      intro t ht
      have hne : u ≠ t := by
        intro hc; subst hc; exact hnd2.1 ht
      rw [resolve_pending_of_ne reg u t r (Ne.symm hne)]
      exact hall t (List.mem_cons_of_mem u ht)
    rw [ih _ hnd2.2 hall2, resolve_of_pending reg u r (hall u (List.mem_cons_self u ts))]
    simp only [List.length_cons]
    omega

theorem resolve_pending_false (reg : Registry) (t u : Nat) (r : TaskResult)
    (h : reg.pending t = false) : ((reg.resolve u r).2).pending t = false := by
  by_cases hu : u = t
  · subst hu; exact resolve_not_pending_self reg u r
  · rw [resolve_pending_of_ne reg u t r (Ne.symm hu)]; exact h

theorem resolveMany_pending_of_not_mem (reg : Registry) (ts : List Nat) (r : TaskResult)
    (t : Nat) (hmem : t ∉ ts) : (resolveMany reg ts r).pending t = reg.pending t := by
  induction ts generalizing reg with
  | nil => rfl
  | cons u ts ih =>
    rw [resolveMany_cons]
    have hne : u ≠ t := by
      intro hc; subst hc; exact hmem (List.mem_cons_self u ts)
    rw [ih _ (fun hc => hmem (List.mem_cons_of_mem u hc))]
    exact resolve_pending_of_ne reg u t r (Ne.symm hne)

theorem stepEvent_entries_subset (reg : Registry) (ev : BridgeEvent) :
    ∀ e ∈ (stepEvent reg ev).entries, e ∈ reg.entries := by
  cases ev with
  | reply u r =>
    intro e he
    rw [stepEvent, resolve_entries] at he
    exact List.mem_of_mem_filter he
  | sweep now => exact resolveMany_entries_subset reg _ _
  | disconnect c => exact resolveMany_entries_subset reg _ _

theorem runEvents_entries_subset (reg : Registry) (evs : List BridgeEvent) :
    ∀ e ∈ (runEvents reg evs).entries, e ∈ reg.entries := by
  induction evs generalizing reg with
  | nil => intro e he; exact he
  | cons ev evs ih =>
    intro e he
    exact stepEvent_entries_subset reg ev e (ih (stepEvent reg ev) e he)

theorem stepEvent_pending_false (reg : Registry) (ev : BridgeEvent) (t : Nat)
    (h : reg.pending t = false) : (stepEvent reg ev).pending t = false := by
  cases ev with
  | reply u r => exact resolve_pending_false reg t u r h
  | sweep now => exact resolveMany_pending_false reg _ _ t h
  | disconnect c => exact resolveMany_pending_false reg _ _ t h

theorem stepEvent_lookup_of_not_pending (reg : Registry) (ev : BridgeEvent) (t : Nat)
    (h : reg.pending t = false) :
    (stepEvent reg ev).lookupResolved t = reg.lookupResolved t := by
  cases ev with
  | reply u r => exact resolve_lookup_of_not_pending reg t u r h
  | sweep now => exact resolveMany_lookup_of_not_pending reg _ _ t h
  | disconnect c => exact resolveMany_lookup_of_not_pending reg _ _ t h

theorem runEvents_lookup_of_not_pending (reg : Registry) (evs : List BridgeEvent) (t : Nat)
    (h : reg.pending t = false) :
    (runEvents reg evs).lookupResolved t = reg.lookupResolved t ∧
      (runEvents reg evs).pending t = false := by
  induction evs generalizing reg with
  | nil => exact ⟨rfl, h⟩
  | cons ev evs ih =>
    have h2 := stepEvent_pending_false reg ev t h
    have := ih (stepEvent reg ev) h2
    exact ⟨this.1.trans (stepEvent_lookup_of_not_pending reg ev t h), this.2⟩

theorem stepEvent_aliveOrDone (reg : Registry) (ev : BridgeEvent) (t : Nat)
    (h : reg.aliveOrDone t) : (stepEvent reg ev).aliveOrDone t := by
  rcases h with hp | hs
  · cases ev with
    | reply u r =>
      by_cases hu : u = t
      · subst hu
        right
        rw [stepEvent, resolve_lookup_self reg u r hp]
        rfl
      · left
        rw [stepEvent, resolve_pending_of_ne reg u t r (Ne.symm hu)]
        exact hp
    | sweep now =>
      by_cases hmem : t ∈ (reg.entries.filter (fun e => e.deadline < now)).map PendingEntry.taskId
      · right
        rw [stepEvent, Registry.sweepExpired, resolveMany_lookup_of_mem reg _ _ t hmem hp]
        rfl
      · left
        rw [stepEvent, Registry.sweepExpired, resolveMany_pending_of_not_mem reg _ _ t hmem]
        exact hp
    | disconnect c =>
      by_cases hmem : t ∈ (reg.entries.filter (fun e => e.connectionId == c)).map PendingEntry.taskId
      · right
        rw [stepEvent, Registry.failAllForConnection, resolveMany_lookup_of_mem reg _ _ t hmem hp]
        rfl
      · left
        rw [stepEvent, Registry.failAllForConnection, resolveMany_pending_of_not_mem reg _ _ t hmem]
        exact hp
  · right
    cases ev with
    | reply u r => exact resolve_lookup_isSome reg t u r hs
    | sweep now => exact resolveMany_lookup_isSome reg _ _ t hs
    | disconnect c => exact resolveMany_lookup_isSome reg _ _ t hs

theorem runEvents_aliveOrDone (reg : Registry) (evs : List BridgeEvent) (t : Nat)
    (h : reg.aliveOrDone t) : (runEvents reg evs).aliveOrDone t := by
  induction evs generalizing reg with
  | nil => exact h
  | cons ev evs ih => exact ih (stepEvent reg ev) (stepEvent_aliveOrDone reg ev t h)

theorem resolve_resCount_self_of_pending (reg : Registry) (t : Nat) (r : TaskResult)
    (h : reg.pending t = true) :
    ((reg.resolve t r).2).resCount t = reg.resCount t + 1 := by
  rw [resolve_of_pending reg t r h]
  simp [Registry.resCount, List.filter_cons]

theorem resolve_resCount_of_ne (reg : Registry) (t u : Nat) (r : TaskResult) (hne : u ≠ t) :
    ((reg.resolve u r).2).resCount t = reg.resCount t := by
  by_cases hu : reg.pending u = true
  · rw [resolve_of_pending reg u r hu]
    simp [Registry.resCount, List.filter_cons, hne]
  · rw [resolve_of_not_pending reg u r (by simpa using hu)]

theorem lookup_some_resCount_pos (reg : Registry) (t : Nat) (r : TaskResult)
    (h : reg.lookupResolved t = some r) : 0 < reg.resCount t := by
  rw [Registry.lookupResolved] at h
  rcases Option.map_eq_some'.mp h with ⟨q, hq, hqr⟩
  have hqmem := List.mem_of_find?_eq_some hq
  have hqkey := List.find?_some hq
  refine List.length_pos_of_mem (a := q) ?_
  exact List.mem_filter.mpr ⟨hqmem, hqkey⟩

theorem resolve_resolvedOnceInv (reg : Registry) (u : Nat) (r : TaskResult) (t : Nat)
    (h : reg.resolvedOnceInv t) : ((reg.resolve u r).2).resolvedOnceInv t := by
  by_cases hu : u = t
  · subst hu
    by_cases hp : reg.pending u = true
    · have hc0 : reg.resCount u = 0 := h.2 hp
      constructor
      · rw [resolve_resCount_self_of_pending reg u r hp, hc0]
      · intro hpend
        rw [resolve_not_pending_self reg u r] at hpend
        cases hpend
    · have hp0 : reg.pending u = false := by simpa using hp
      rw [resolve_of_not_pending reg u r hp0]
      exact h
  · constructor
    · rw [resolve_resCount_of_ne reg t u r hu]
      exact h.1
    · intro hpend
      rw [resolve_pending_of_ne reg u t r (Ne.symm hu)] at hpend
      rw [resolve_resCount_of_ne reg t u r hu]
      exact h.2 hpend

theorem resolveMany_resolvedOnceInv (reg : Registry) (ts : List Nat) (r : TaskResult) (t : Nat)
    (h : reg.resolvedOnceInv t) : (resolveMany reg ts r).resolvedOnceInv t := by
  induction ts generalizing reg with
  | nil => exact h
  | cons u ts ih =>
    rw [resolveMany_cons]
    exact ih _ (resolve_resolvedOnceInv reg u r t h)

theorem stepEvent_resolvedOnceInv (reg : Registry) (ev : BridgeEvent) (t : Nat)
    (h : reg.resolvedOnceInv t) : (stepEvent reg ev).resolvedOnceInv t := by
  cases ev with
  | reply u r => exact resolve_resolvedOnceInv reg u r t h
  | sweep now => exact resolveMany_resolvedOnceInv reg _ _ t h
  | disconnect c => exact resolveMany_resolvedOnceInv reg _ _ t h

theorem runEvents_resolvedOnceInv (reg : Registry) (evs : List BridgeEvent) (t : Nat)
    (h : reg.resolvedOnceInv t) : (runEvents reg evs).resolvedOnceInv t := by
  induction evs generalizing reg with
  | nil => exact h
  | cons ev evs ih => exact ih (stepEvent reg ev) (stepEvent_resolvedOnceInv reg ev t h)

theorem register_fresh (reg : Registry) (c d : Nat) :
    reg.register ⟨freshTaskId reg, c, d⟩ =
      some ⟨(⟨freshTaskId reg, c, d⟩ : PendingEntry) :: reg.entries, reg.resolved⟩ := by
  rw [Registry.register, if_neg]
  intro hc
  rw [List.any_eq_true] at hc
  rcases hc with ⟨e, he, hbeq⟩
  exact freshTaskId_not_entry reg e he (by simpa using hbeq)

theorem dispatchStart_no_ready (reg : Registry) (conns : List PluginConnection) (now : Nat)
    (tmo : Option Nat) (send : SendOutcome) (h : readyConnections conns = []) :
    dispatchStart reg conns now tmo send = (reg, Sum.inl notConnectedResult) := by
  rw [dispatchStart, h]

theorem dispatchStart_inr_inv (reg : Registry) (conns : List PluginConnection) (now : Nat)
    (tmo : Option Nat) (send : SendOutcome) (reg1 : Registry) (entry : PendingEntry)
    (h : dispatchStart reg conns now tmo send = (reg1, Sum.inr entry)) :
    reg1 = ⟨entry :: reg.entries, reg.resolved⟩ ∧ entry.taskId = freshTaskId reg ∧
      entry.deadline = now + tmo.getD defaultTimeoutMs ∧ send = SendOutcome.delivered := by
  cases hc : readyConnections conns with
  | nil =>
    rw [dispatchStart_no_ready reg conns now tmo send hc] at h
    simp at h
  | cons c rest =>
    rw [dispatchStart, hc] at h
    simp only [register_fresh] at h
    cases send with
    | delivered =>
      simp only [Prod.mk.injEq, Sum.inr.injEq] at h
      rcases h with ⟨h1, h2⟩
      subst h2
      exact ⟨h1.symm, rfl, rfl, rfl⟩
    | connectionNotFound => simp at h
    | transportFailure => simp at h

theorem runEvents_append_single (reg : Registry) (evs : List BridgeEvent) (ev : BridgeEvent) :
    runEvents reg (evs ++ [ev]) = stepEvent (runEvents reg evs) ev := by
  rw [runEvents, List.foldl_append]
  rfl

/-- C1. For every task dispatched through the Plugin Task Bridge, the
public operation dispatch(task, timeout) returns a TaskResult to the
caller in every case: an immediate environmental failure (no Ready
connection, a failed send) is returned at once as a TaskResult status,
and a dispatched task is, under every schedule of asynchronous events
(replies, sweeps, disconnects), resolved by the time of the bridge's own
deadline sweep, so the caller receives exactly the recorded terminal
resolution and never hangs unboundedly; no case throws across the public
boundary, since dispatch is a total function into TaskResult. -/
theorem dispatch_always_returns_taskResult (reg : Registry) (conns : List PluginConnection)
    (now : Nat) (timeoutMs : Option Nat) (send : SendOutcome) (evs : List BridgeEvent) :
    (∀ regF r, dispatchStart reg conns now timeoutMs send = (regF, Sum.inl r) →
      dispatchRun reg conns now timeoutMs send evs = r) ∧
    (∀ reg1 entry, dispatchStart reg conns now timeoutMs send = (reg1, Sum.inr entry) →
      (runEvents reg1 (evs ++ [BridgeEvent.sweep (entry.deadline + 1)])).lookupResolved
          entry.taskId
        = some (dispatchRun reg conns now timeoutMs send evs)) := by
  constructor
  · intro regF r h
    rw [dispatchRun, h]
  · intro reg1 entry h
    rcases dispatchStart_inr_inv reg conns now timeoutMs send reg1 entry h with
      ⟨hreg1, htid, _, _⟩
    have hpend1 : reg1.pending entry.taskId = true := by
      rw [hreg1, Registry.pending, List.any_cons]
      simp
    have halive : (runEvents reg1 evs).aliveOrDone entry.taskId :=
      runEvents_aliveOrDone reg1 evs entry.taskId (Or.inl hpend1)
    have hfinal :
        ((runEvents reg1 (evs ++ [BridgeEvent.sweep (entry.deadline + 1)])).lookupResolved
          entry.taskId).isSome = true := by
      rw [runEvents_append_single]
      set reg2 := runEvents reg1 evs with hreg2
      rcases halive with hp | hs
      · have hmem : entry.taskId ∈
            (reg2.entries.filter (fun e => e.deadline < entry.deadline + 1)).map
              PendingEntry.taskId := by
          rw [Registry.pending, List.any_eq_true] at hp
          rcases hp with ⟨e, he, hbeq⟩
          have hesub : e ∈ reg1.entries := runEvents_entries_subset reg1 evs e he
          rw [hreg1] at hesub
          have heq : e = entry := by
            rcases List.mem_cons.mp hesub with hh | hh
            · exact hh
            · exfalso
              refine freshTaskId_not_entry reg e hh ?_
              rw [← htid]
              simpa using hbeq
          subst heq
          refine List.mem_map_of_mem _ ?_
          refine List.mem_filter.mpr ⟨he, ?_⟩
          simp
        have := resolveMany_lookup_of_mem reg2 _ timeoutResult entry.taskId hmem hp
        rw [stepEvent, Registry.sweepExpired, this]
        rfl
      · exact resolveMany_lookup_isSome reg2 _ timeoutResult entry.taskId hs
    rcases Option.isSome_iff_exists.mp hfinal with ⟨r, hr⟩
    rw [hr, dispatchRun, h]
    simp [hr]

theorem resolveMany_pending_false_of_mem (reg : Registry) (ts : List Nat) (r : TaskResult)
    (t : Nat) (hmem : t ∈ ts) : (resolveMany reg ts r).pending t = false := by
  induction ts generalizing reg with
  | nil => cases hmem
  | cons u ts ih =>
    rw [resolveMany_cons]
    by_cases hu : u = t
    · subst hu
      exact resolveMany_pending_false _ ts r u (resolve_not_pending_self reg u r)
    · rcases List.mem_cons.mp hmem with hc | hc
      · exact absurd hc.symm hu
      · exact ih _ hc

/-- C2. For every task dispatched to a Ready connection, exactly one
terminal resolution of its PendingEntry occurs, even when a reply, a
timeout sweep and a connection loss race: a successful `resolve` makes
every later `resolve` of the same task id return false and leave the
registry untouched; the at-most-one-resolution invariant is preserved by
every schedule of racing events; a recorded resolution is stable under
every later schedule; and delivering the same correlation id twice
resolves the task once with the first result, the second delivery being
silently dropped. -/
theorem exactly_one_terminal_resolution (reg reg2 : Registry) (t : Nat) (r1 r2 : TaskResult)
    (evs : List BridgeEvent) :
    (reg.resolve t r1 = (true, reg2) → reg2.resolve t r2 = (false, reg2)) ∧
    (reg.resolvedOnceInv t → (runEvents reg evs).resolvedOnceInv t) ∧
    (reg.resolvedOnceInv t → reg.lookupResolved t = some r1 →
      (runEvents reg evs).lookupResolved t = some r1) ∧
    (reg.pending t = true →
      (runEvents reg [BridgeEvent.reply t r1, BridgeEvent.reply t r2]).lookupResolved t
          = some r1 ∧
      ((reg.resolve t r1).2).resolve t r2 = (false, (reg.resolve t r1).2)) ∧
    (reg.pending t = true → reg.resCount t = 0 →
      (runEvents reg [BridgeEvent.reply t r1, BridgeEvent.reply t r2]).resCount t = 1) := by
  have hstep2 : ∀ s : Registry, runEvents s [BridgeEvent.reply t r1, BridgeEvent.reply t r2]
      = ((((s.resolve t r1).2).resolve t r2)).2 := by
    intro s
    rfl
  refine ⟨?_, ?_, ?_, ?_, ?_⟩
  · intro h
    have hsnd : (reg.resolve t r1).2 = reg2 := by rw [h]
    have hnp : reg2.pending t = false := by
      rw [← hsnd]
      exact resolve_not_pending_self reg t r1
    exact resolve_of_not_pending reg2 t r2 hnp
  · exact runEvents_resolvedOnceInv reg evs t
  · intro hinv hlk
    have hpos := lookup_some_resCount_pos reg t r1 hlk
    have hnp : reg.pending t = false := by
      by_cases hp : reg.pending t = true
      · rw [hinv.2 hp] at hpos
        cases hpos
      · simpa using hp
    rw [(runEvents_lookup_of_not_pending reg evs t hnp).1]
    exact hlk
  · intro hp
    have hnp := resolve_not_pending_self reg t r1
    have hno : ((reg.resolve t r1).2).resolve t r2 = (false, (reg.resolve t r1).2) :=
      resolve_of_not_pending _ t r2 hnp
    refine ⟨?_, hno⟩
    rw [hstep2 reg]
    rw [hno]
    exact resolve_lookup_self reg t r1 hp
  · intro hp hc0
    have hnp := resolve_not_pending_self reg t r1
    rw [hstep2 reg, resolve_of_not_pending _ t r2 hnp]
    rw [resolve_resCount_self_of_pending reg t r1 hp, hc0]

/-- C3. For every dispatch made while zero connections are Ready, the
bridge fails immediately with the NotConnected status, a constructor
distinct from every other status, leaves the registry exactly as it was
(no task is queued, buffered or registered), and the caller-facing
dispatch returns that NotConnected TaskResult. -/
theorem dispatch_not_connected (reg : Registry) (conns : List PluginConnection) (now : Nat)
    (tmo : Option Nat) (send : SendOutcome) (evs : List BridgeEvent)
    (h : readyConnections conns = []) :
    dispatchStart reg conns now tmo send = (reg, Sum.inl notConnectedResult) ∧
    dispatchRun reg conns now tmo send evs = notConnectedResult ∧
    notConnectedResult.status = TaskStatus.notConnected ∧
    (TaskStatus.notConnected ≠ TaskStatus.ok ∧
      TaskStatus.notConnected ≠ TaskStatus.disconnected ∧
      TaskStatus.notConnected ≠ TaskStatus.timeout ∧
      TaskStatus.notConnected ≠ TaskStatus.remoteError ∧
      TaskStatus.notConnected ≠ TaskStatus.transportError) := by
  have h1 := dispatchStart_no_ready reg conns now tmo send h
  refine ⟨h1, ?_, rfl, by decide⟩
  rw [dispatchRun, h1]

/-- C4. When a connection closes while N tasks are pending on it,
failAllForConnection resolves every one of them with status Disconnected:
afterwards the registry holds zero entries bound to that connection, every
formerly pending entry of the connection has the Disconnected result on
record, and (when task ids are unique, as id generation guarantees)
exactly N new terminal resolutions are recorded. -/
theorem failAllForConnection_disconnects_all (reg : Registry) (c : Nat) (reason : String) :
    (reg.failAllForConnection c reason).entries.filter (fun e => e.connectionId == c) = [] ∧
    (∀ e ∈ reg.entries, e.connectionId = c →
      (reg.failAllForConnection c reason).lookupResolved e.taskId
        = some (disconnectedResult reason)) ∧
    ((reg.entries.map PendingEntry.taskId).Nodup →
      (reg.failAllForConnection c reason).resolved.length =
        (reg.entries.filter (fun e => e.connectionId == c)).length + reg.resolved.length) := by
  refine ⟨?_, ?_, ?_⟩
  · rw [List.filter_eq_nil_iff]
    intro e he
    have hesub := resolveMany_entries_subset reg _ _ e he
    intro hconn
    have hmem : e.taskId ∈
        (reg.entries.filter (fun x => x.connectionId == c)).map PendingEntry.taskId :=
      List.mem_map_of_mem _ (List.mem_filter.mpr ⟨hesub, hconn⟩)
    have hnp := resolveMany_pending_false_of_mem reg _ (disconnectedResult reason) _ hmem
    rw [Registry.pending, List.any_eq_false] at hnp
    have := hnp e he
    simp at this
  · intro e he hconn
    have hmem : e.taskId ∈
        (reg.entries.filter (fun x => x.connectionId == c)).map PendingEntry.taskId := by
      refine List.mem_map_of_mem _ (List.mem_filter.mpr ⟨he, ?_⟩)
      simp [hconn]
    have hp : reg.pending e.taskId = true := by
      rw [Registry.pending, List.any_eq_true]
      exact ⟨e, he, by simp⟩
    exact resolveMany_lookup_of_mem reg _ _ e.taskId hmem hp
  · intro hnd
    rw [Registry.failAllForConnection,
      resolveMany_resolved_length reg _ (disconnectedResult reason) ?_ ?_]
    · rw [List.length_map]
    · exact List.Nodup.sublist (List.Sublist.map _ (List.filter_sublist _)) hnd
    · intro t ht
      rcases List.mem_map.mp ht with ⟨e, hef, het⟩
      rw [Registry.pending, List.any_eq_true]
      exact ⟨e, List.mem_of_mem_filter hef, by simp [het]⟩

/-- C5. The deadline of a dispatched task equals dispatch time plus the
caller-supplied timeout, with 30000 ms as the default when none is
supplied; sweepExpired resolves every entry whose deadline has passed with
status Timeout and leaves not-yet-expired tasks pending; so a task
dispatched with timeout 100 ms to a Ready connection that never replies
returns the Timeout result once the sweep after its deadline runs, and not
before. -/
theorem deadline_and_timeout (reg : Registry) (conns : List PluginConnection)
    (now now2 tmoVal : Nat) (send : SendOutcome) (c : PluginConnection)
    (rest : List PluginConnection) :
    (∀ reg1 entry, dispatchStart reg conns now (some tmoVal) send = (reg1, Sum.inr entry) →
      entry.deadline = now + tmoVal) ∧
    (∀ reg1 entry, dispatchStart reg conns now none send = (reg1, Sum.inr entry) →
      entry.deadline = now + 30000) ∧
    defaultTimeoutMs = 30000 ∧
    (∀ e ∈ reg.entries, e.deadline < now2 →
      (reg.sweepExpired now2).lookupResolved e.taskId = some timeoutResult) ∧
    timeoutResult.status = TaskStatus.timeout ∧
    (∀ t : Nat, (∀ e ∈ reg.entries, e.taskId = t → ¬ e.deadline < now2) →
      (reg.sweepExpired now2).pending t = reg.pending t) ∧
    (readyConnections conns = c :: rest →
      dispatchRun reg conns now (some 100) SendOutcome.delivered [] = timeoutResult) := by
  refine ⟨?_, ?_, rfl, ?_, rfl, ?_, ?_⟩
  · intro reg1 entry h
    exact (dispatchStart_inr_inv reg conns now (some tmoVal) send reg1 entry h).2.2.1
  · intro reg1 entry h
    exact (dispatchStart_inr_inv reg conns now none send reg1 entry h).2.2.1
  · intro e he hde
    have hmem : e.taskId ∈
        (reg.entries.filter (fun x => x.deadline < now2)).map PendingEntry.taskId := by
      refine List.mem_map_of_mem _ (List.mem_filter.mpr ⟨he, ?_⟩)
      simp [hde]
    have hp : reg.pending e.taskId = true := by
      rw [Registry.pending, List.any_eq_true]
      exact ⟨e, he, by simp⟩
    exact resolveMany_lookup_of_mem reg _ _ e.taskId hmem hp
  · intro t hno
    rw [Registry.sweepExpired]
    refine resolveMany_pending_of_not_mem reg _ _ t ?_
    intro hmem
    rcases List.mem_map.mp hmem with ⟨e, hef, het⟩
    rcases List.mem_filter.mp hef with ⟨he, hdl⟩
    exact hno e he het (by simpa using hdl)
  · intro hc
    have hstart : dispatchStart reg conns now (some 100) SendOutcome.delivered =
        (⟨(⟨freshTaskId reg, c.connectionId, now + 100⟩ : PendingEntry) :: reg.entries,
          reg.resolved⟩,
         Sum.inr ⟨freshTaskId reg, c.connectionId, now + 100⟩) := by
      rw [dispatchStart, hc]
      simp only [Option.getD_some, register_fresh]
    rw [dispatchRun, hstart]
    have hlk :
        (runEvents
            ⟨(⟨freshTaskId reg, c.connectionId, now + 100⟩ : PendingEntry) :: reg.entries,
              reg.resolved⟩
            [BridgeEvent.sweep (now + 100 + 1)]).lookupResolved (freshTaskId reg)
          = some timeoutResult := by
      have hrun1 : runEvents
          ⟨(⟨freshTaskId reg, c.connectionId, now + 100⟩ : PendingEntry) :: reg.entries,
            reg.resolved⟩
          [BridgeEvent.sweep (now + 100 + 1)]
          = stepEvent
              ⟨(⟨freshTaskId reg, c.connectionId, now + 100⟩ : PendingEntry) :: reg.entries,
                reg.resolved⟩
              (BridgeEvent.sweep (now + 100 + 1)) := rfl
      rw [hrun1, stepEvent, Registry.sweepExpired]
      refine resolveMany_lookup_of_mem _ _ _ _ ?_ ?_
      · refine List.mem_map.mpr ⟨⟨freshTaskId reg, c.connectionId, now + 100⟩, ?_, rfl⟩
        refine List.mem_filter.mpr ⟨List.mem_cons_self _ _, ?_⟩
        simp
      · rw [Registry.pending, List.any_cons]
        simp
    simp [hlk]

/-- C7. The bridge neither requires nor produces any ordering between the
completions of two tasks pending on the same connection: for any two
distinct pending tasks, the schedule where the second reply arrives first
and the schedule where the first reply arrives first are both permitted
behaviours, recording the two completions in opposite orders, and in
either schedule each task receives exactly its own reply. -/
theorem completions_may_happen_in_either_order (reg : Registry) (t1 t2 : Nat)
    (r1 r2 : TaskResult) (hne : t1 ≠ t2) (h1 : reg.pending t1 = true)
    (h2 : reg.pending t2 = true) :
    (runEvents reg [BridgeEvent.reply t2 r2, BridgeEvent.reply t1 r1]).resolved
        = (t1, r1) :: (t2, r2) :: reg.resolved ∧
    (runEvents reg [BridgeEvent.reply t1 r1, BridgeEvent.reply t2 r2]).resolved
        = (t2, r2) :: (t1, r1) :: reg.resolved ∧
    (runEvents reg [BridgeEvent.reply t2 r2, BridgeEvent.reply t1 r1]).lookupResolved t1
        = some r1 ∧
    (runEvents reg [BridgeEvent.reply t2 r2, BridgeEvent.reply t1 r1]).lookupResolved t2
        = some r2 := by
  have hrun : ∀ (s : Registry) (u v : Nat) (ru rv : TaskResult),
      runEvents s [BridgeEvent.reply u ru, BridgeEvent.reply v rv]
        = (((s.resolve u ru).2).resolve v rv).2 := by
    intro s u v ru rv
    rfl
  have hp12 : ((reg.resolve t2 r2).2).pending t1 = true := by
    rw [resolve_pending_of_ne reg t2 t1 r2 hne]
    exact h1
  have hp21 : ((reg.resolve t1 r1).2).pending t2 = true := by
    rw [resolve_pending_of_ne reg t1 t2 r1 (Ne.symm hne)]
    exact h2
  have e1 : (((reg.resolve t2 r2).2).resolve t1 r1).2.resolved
      = (t1, r1) :: (t2, r2) :: reg.resolved := by
    rw [resolve_of_pending _ t1 r1 hp12, resolve_of_pending reg t2 r2 h2]
  have e2 : (((reg.resolve t1 r1).2).resolve t2 r2).2.resolved
      = (t2, r2) :: (t1, r1) :: reg.resolved := by
    rw [resolve_of_pending _ t2 r2 hp21, resolve_of_pending reg t1 r1 h1]
  refine ⟨by rw [hrun]; exact e1, by rw [hrun]; exact e2, ?_, ?_⟩
  · rw [hrun, Registry.lookupResolved, e1]
    simp [List.find?_cons]
  · rw [hrun, Registry.lookupResolved, e1]
    rw [List.find?_cons_of_neg, List.find?_cons_of_pos] <;> simp [hne]

/-- C6. The statuses NotConnected, Disconnected, Timeout, RemoteError and
TransportError remain distinguishable in every TaskResult handed to the
tool layer: they are pairwise distinct, all distinct from Ok, and a
TaskResult carrying any of them differs from every successful TaskResult
whose data is undefined; the results the bridge actually produces carry
exactly these statuses. -/
theorem statuses_distinguishable_at_tool_layer :
    failureStatuses.Pairwise (fun a b => a ≠ b) ∧
    (∀ s ∈ failureStatuses, s ≠ TaskStatus.ok) ∧
    (∀ (r : TaskResult) (m : Option String), r.status ∈ failureStatuses →
      r ≠ ⟨TaskStatus.ok, none, m⟩) ∧
    notConnectedResult.status = TaskStatus.notConnected ∧
    (∀ reason, (disconnectedResult reason).status = TaskStatus.disconnected) ∧
    timeoutResult.status = TaskStatus.timeout ∧
    (∀ reason, (transportErrorResult reason).status = TaskStatus.transportError) := by
  refine ⟨by decide, by decide, ?_, rfl, fun _ => rfl, rfl, fun _ => rfl⟩
  intro r m hmem hc
  rw [hc] at hmem
  simp [failureStatuses] at hmem

/-- Witness for C6 at a concrete result: the Timeout result differs from a
successful result with undefined data. -/
theorem statuses_distinguishable_at_tool_layer_witness :
    timeoutResult ≠ (⟨TaskStatus.ok, none, none⟩ : TaskResult) :=
  statuses_distinguishable_at_tool_layer.2.2.1 timeoutResult none (by decide)

/-- Witness for C1 at a concrete dispatch: one Ready connection, timeout
100 ms, no reply; the recorded resolution is exactly what dispatch
returns. -/
theorem dispatch_always_returns_taskResult_witness :
    (runEvents (⟨[⟨1, 7, 100⟩], []⟩ : Registry)
        ([] ++ [BridgeEvent.sweep (100 + 1)])).lookupResolved 1
      = some (dispatchRun ⟨[], []⟩ [⟨7, ConnState.ready⟩] 0 (some 100)
          SendOutcome.delivered []) :=
  (dispatch_always_returns_taskResult ⟨[], []⟩ [⟨7, ConnState.ready⟩] 0 (some 100)
    SendOutcome.delivered []).2 ⟨[⟨1, 7, 100⟩], []⟩ ⟨1, 7, 100⟩ (by decide)

/-- Witness for C2 at a concrete double delivery: the first reply wins,
the duplicate is dropped. -/
theorem exactly_one_terminal_resolution_witness :
    (runEvents (⟨[⟨5, 1, 99⟩], []⟩ : Registry)
        [BridgeEvent.reply 5 ⟨TaskStatus.ok, some "x", none⟩,
          BridgeEvent.reply 5 ⟨TaskStatus.ok, some "y", none⟩]).lookupResolved 5
      = some ⟨TaskStatus.ok, some "x", none⟩ :=
  ((exactly_one_terminal_resolution ⟨[⟨5, 1, 99⟩], []⟩ ⟨[], []⟩ 5
      ⟨TaskStatus.ok, some "x", none⟩ ⟨TaskStatus.ok, some "y", none⟩ []).2.2.2.1
    (by decide)).1

/-- Witness for C3 at a concrete dispatch with zero connections. -/
theorem dispatch_not_connected_witness :
    dispatchRun ⟨[], []⟩ [] 0 none SendOutcome.delivered [] = notConnectedResult :=
  (dispatch_not_connected ⟨[], []⟩ [] 0 none SendOutcome.delivered [] (by decide)).2.1

/-- Witness for C4 at a concrete connection loss with one pending task. -/
theorem failAllForConnection_disconnects_all_witness :
    ((⟨[⟨3, 2, 50⟩], []⟩ : Registry).failAllForConnection 2 "gone").lookupResolved 3
      = some (disconnectedResult "gone") :=
  (failAllForConnection_disconnects_all ⟨[⟨3, 2, 50⟩], []⟩ 2 "gone").2.1
    ⟨3, 2, 50⟩ (by decide) rfl

/-- Witness for C5 at the concrete scenario: Ready connection, timeout
100 ms, no reply, dispatch returns the Timeout result. -/
theorem deadline_and_timeout_witness :
    dispatchRun ⟨[], []⟩ [⟨4, ConnState.ready⟩] 10 (some 100) SendOutcome.delivered []
      = timeoutResult :=
  (deadline_and_timeout ⟨[], []⟩ [⟨4, ConnState.ready⟩] 10 0 0 SendOutcome.delivered
    ⟨4, ConnState.ready⟩ []).2.2.2.2.2.2 (by decide)

/-- Witness for C7 at two concrete tasks replied to in reverse dispatch
order. -/
theorem completions_may_happen_in_either_order_witness :
    (runEvents (⟨[⟨1, 7, 50⟩, ⟨2, 7, 60⟩], []⟩ : Registry)
        [BridgeEvent.reply 2 ⟨TaskStatus.ok, some "b", none⟩,
          BridgeEvent.reply 1 ⟨TaskStatus.ok, some "a", none⟩]).resolved
      = [(1, ⟨TaskStatus.ok, some "a", none⟩), (2, ⟨TaskStatus.ok, some "b", none⟩)] :=
  (completions_may_happen_in_either_order ⟨[⟨1, 7, 50⟩, ⟨2, 7, 60⟩], []⟩ 1 2
    ⟨TaskStatus.ok, some "a", none⟩ ⟨TaskStatus.ok, some "b", none⟩
    (by decide) (by decide) (by decide)).1

end Bridge

namespace ComponentLibraryManager

/-- C8. For every executeCore call whose operation requires an argument
that is absent — create with shapeIds missing or empty; delete, sync,
getInstances or update with componentId missing; detach with instanceId
missing; update with both updates and name missing — the tool answers
with a TextResponse that begins with Error: and names the missing
argument, and submits no task to the plugin bridge: the outcome is a
respond action, which is never equal to a runPlugin action. -/
theorem missing_argument_is_rejected_without_plugin_task
    (args : ComponentLibraryManagerArgs) :
    (args.operation = Operation.create → args.shapeIds = none ∨ args.shapeIds = some [] →
      executeCore args = ToolAction.respond
        "Error: \x27shapeIds\x27 is required for \x27create\x27 operation") ∧
    (args.operation = Operation.delete → args.componentId = none →
      executeCore args = ToolAction.respond
        "Error: \x27componentId\x27 is required for \x27delete\x27 operation") ∧
    (args.operation = Operation.sync → args.componentId = none →
      executeCore args = ToolAction.respond
        "Error: \x27componentId\x27 is required for \x27sync\x27 operation") ∧
    (args.operation = Operation.getInstances → args.componentId = none →
      executeCore args = ToolAction.respond
        "Error: \x27componentId\x27 is required for \x27getInstances\x27 operation") ∧
    (args.operation = Operation.update → args.componentId = none →
      executeCore args = ToolAction.respond
        "Error: \x27componentId\x27 is required for \x27update\x27 operation") ∧
    (args.operation = Operation.detach → args.instanceId = none →
      executeCore args = ToolAction.respond
        "Error: \x27instanceId\x27 is required for \x27detach\x27 operation") ∧
    (args.operation = Operation.update → strFalsy args.componentId = false →
      args.updates = none → args.name = none →
      executeCore args = ToolAction.respond
        "Error: \x27updates\x27 or \x27name\x27 is required for \x27update\x27 operation") ∧
    (∀ text code, ToolAction.respond text ≠ ToolAction.runPlugin code) := by
  refine ⟨?_, ?_, ?_, ?_, ?_, ?_, ?_, ?_⟩
  · intro hop hmiss
    rcases hmiss with h | h <;>
      simp [executeCore, hop, createComponent, shapeIdsMissing, h]
  · intro hop h
    simp [executeCore, hop, deleteComponent, strFalsy, h]
  · intro hop h
    simp [executeCore, hop, syncInstances, strFalsy, h]
  · intro hop h
    simp [executeCore, hop, getInstances, strFalsy, h]
  · intro hop h
    simp [executeCore, hop, updateComponent, strFalsy, h]
  · intro hop h
    simp [executeCore, hop, detachInstance, strFalsy, h]
  · intro hop hcid hupd hname
    simp only [executeCore, hop, updateComponent, hcid, hupd, hname]
    simp [strFalsy]
  · intro text code hc
    cases hc

/-- Witness for C8 at a concrete call: operation create with shapeIds
absent is rejected without any plugin task. -/
theorem missing_argument_is_rejected_without_plugin_task_witness :
    executeCore ⟨Operation.create, none, none, none, none, none, none⟩
      = ToolAction.respond
          "Error: \x27shapeIds\x27 is required for \x27create\x27 operation" :=
  (missing_argument_is_rejected_without_plugin_task
    ⟨Operation.create, none, none, none, none, none, none⟩).1 rfl (Or.inl rfl)

end ComponentLibraryManager

namespace Cli

theorem noValidValueAfter_tail (f : String → Bool) (b : String) (l : List String)
    (h : noValidValueAfter f (b :: l) = true) : noValidValueAfter f l = true := by
  cases l with
  | nil => rfl
  | cons c r =>
    rw [noValidValueAfter, Bool.and_eq_true] at h
    exact h.2

theorem parseLoop_ports_characterization (args : List String) (st : Ports) :
    ∀ st2, parseLoop args st = some st2 →
      (noValidValueAfter isPortFlag args = true → st2.port = st.port) ∧
      (noValidValueAfter isWsPortFlag args = true → st2.wsPort = st.wsPort) ∧
      (noValidValueAfter isReplPortFlag args = true → st2.replPort = st.replPort) := by
  induction args, st using parseLoop.induct with
  | case1 st =>
    intro st2 hrun
    simp [parseLoop] at hrun
    subst hrun
    exact ⟨fun _ => rfl, fun _ => rfl, fun _ => rfl⟩
  | case2 a st h =>
    intro st2 hrun
    rcases h with rfl | rfl <;>
      (simp [parseLoop] at hrun; subst hrun; exact ⟨fun _ => rfl, fun _ => rfl, fun _ => rfl⟩)
  | case3 a st h v rest2 n hparse hvalid ih =>
    intro st2 hrun
    rcases h with rfl | rfl <;>
      (simp [parseLoop, hparse, hvalid] at hrun;
       exact ⟨fun hnv => by
          simp [noValidValueAfter, isPortFlag, validPortArg, hparse, hvalid] at hnv,
        fun hnv => (ih st2 hrun).2.1
          (noValidValueAfter_tail _ _ _ (noValidValueAfter_tail _ _ _ hnv)),
        fun hnv => (ih st2 hrun).2.2
          (noValidValueAfter_tail _ _ _ (noValidValueAfter_tail _ _ _ hnv))⟩)
  | case4 a st h v rest2 n hparse hnvalid ih =>
    intro st2 hrun
    rcases h with rfl | rfl <;>
      (simp [parseLoop, hparse, hnvalid] at hrun;
       exact ⟨fun hnv => (ih st2 hrun).1 (noValidValueAfter_tail _ _ _ hnv),
        fun hnv => (ih st2 hrun).2.1 (noValidValueAfter_tail _ _ _ hnv),
        fun hnv => (ih st2 hrun).2.2 (noValidValueAfter_tail _ _ _ hnv)⟩)
  | case5 a st h v rest2 hparse ih =>
    intro st2 hrun
    rcases h with rfl | rfl <;>
      (simp [parseLoop, hparse] at hrun;
       exact ⟨fun hnv => (ih st2 hrun).1 (noValidValueAfter_tail _ _ _ hnv),
        fun hnv => (ih st2 hrun).2.1 (noValidValueAfter_tail _ _ _ hnv),
        fun hnv => (ih st2 hrun).2.2 (noValidValueAfter_tail _ _ _ hnv)⟩)
  | case6 st h1 =>
    intro st2 hrun
    simp [parseLoop] at hrun
    subst hrun
    exact ⟨fun _ => rfl, fun _ => rfl, fun _ => rfl⟩
  | case7 st v rest2 n hparse hvalid h1 ih =>
    intro st2 hrun
    simp [parseLoop, hparse, hvalid] at hrun
    exact ⟨fun hnv => (ih st2 hrun).1
        (noValidValueAfter_tail _ _ _ (noValidValueAfter_tail _ _ _ hnv)),
      fun hnv => by
        simp [noValidValueAfter, isWsPortFlag, validPortArg, hparse, hvalid] at hnv,
      fun hnv => (ih st2 hrun).2.2
        (noValidValueAfter_tail _ _ _ (noValidValueAfter_tail _ _ _ hnv))⟩
  | case8 st v rest2 n hparse hnvalid h1 ih =>
    intro st2 hrun
    simp [parseLoop, hparse, hnvalid] at hrun
    exact ⟨fun hnv => (ih st2 hrun).1 (noValidValueAfter_tail _ _ _ hnv),
      fun hnv => (ih st2 hrun).2.1 (noValidValueAfter_tail _ _ _ hnv),
      fun hnv => (ih st2 hrun).2.2 (noValidValueAfter_tail _ _ _ hnv)⟩
  | case9 st v rest2 hparse h1 ih =>
    intro st2 hrun
    simp [parseLoop, hparse] at hrun
    exact ⟨fun hnv => (ih st2 hrun).1 (noValidValueAfter_tail _ _ _ hnv),
      fun hnv => (ih st2 hrun).2.1 (noValidValueAfter_tail _ _ _ hnv),
      fun hnv => (ih st2 hrun).2.2 (noValidValueAfter_tail _ _ _ hnv)⟩
  | case10 st h1 h2 =>
    intro st2 hrun
    simp [parseLoop] at hrun
    subst hrun
    exact ⟨fun _ => rfl, fun _ => rfl, fun _ => rfl⟩
  | case11 st v rest2 n hparse hvalid h1 h2 ih =>
    intro st2 hrun
    simp [parseLoop, hparse, hvalid] at hrun
    exact ⟨fun hnv => (ih st2 hrun).1
        (noValidValueAfter_tail _ _ _ (noValidValueAfter_tail _ _ _ hnv)),
      fun hnv => (ih st2 hrun).2.1
        (noValidValueAfter_tail _ _ _ (noValidValueAfter_tail _ _ _ hnv)),
      fun hnv => by
        simp [noValidValueAfter, isReplPortFlag, validPortArg, hparse, hvalid] at hnv⟩
  | case12 st v rest2 n hparse hnvalid h1 h2 ih =>
    intro st2 hrun
    simp [parseLoop, hparse, hnvalid] at hrun
    exact ⟨fun hnv => (ih st2 hrun).1 (noValidValueAfter_tail _ _ _ hnv),
      fun hnv => (ih st2 hrun).2.1 (noValidValueAfter_tail _ _ _ hnv),
      fun hnv => (ih st2 hrun).2.2 (noValidValueAfter_tail _ _ _ hnv)⟩
  | case13 st v rest2 hparse h1 h2 ih =>
    intro st2 hrun
    simp [parseLoop, hparse] at hrun
    exact ⟨fun hnv => (ih st2 hrun).1 (noValidValueAfter_tail _ _ _ hnv),
      fun hnv => (ih st2 hrun).2.1 (noValidValueAfter_tail _ _ _ hnv),
      fun hnv => (ih st2 hrun).2.2 (noValidValueAfter_tail _ _ _ hnv)⟩
  | case14 a st h1 h2 h3 h =>
    intro st2 hrun
    rcases h with rfl | rfl <;>
      (simp [parseLoop] at hrun; subst hrun; exact ⟨fun _ => rfl, fun _ => rfl, fun _ => rfl⟩)
  | case15 a st h1 h2 h3 h v rest2 ih =>
    intro st2 hrun
    rcases h with rfl | rfl <;>
      (simp [parseLoop] at hrun;
       exact ⟨fun hnv => (ih st2 hrun).1
          (noValidValueAfter_tail _ _ _ (noValidValueAfter_tail _ _ _ hnv)),
        fun hnv => (ih st2 hrun).2.1
          (noValidValueAfter_tail _ _ _ (noValidValueAfter_tail _ _ _ hnv)),
        fun hnv => (ih st2 hrun).2.2
          (noValidValueAfter_tail _ _ _ (noValidValueAfter_tail _ _ _ hnv))⟩)
  | case16 st h1 h2 h3 h4 =>
    intro st2 hrun
    simp [parseLoop] at hrun
    subst hrun
    exact ⟨fun _ => rfl, fun _ => rfl, fun _ => rfl⟩
  | case17 st v rest2 h1 h2 h3 h4 ih =>
    intro st2 hrun
    simp [parseLoop] at hrun
    exact ⟨fun hnv => (ih st2 hrun).1
        (noValidValueAfter_tail _ _ _ (noValidValueAfter_tail _ _ _ hnv)),
      fun hnv => (ih st2 hrun).2.1
        (noValidValueAfter_tail _ _ _ (noValidValueAfter_tail _ _ _ hnv)),
      fun hnv => (ih st2 hrun).2.2
        (noValidValueAfter_tail _ _ _ (noValidValueAfter_tail _ _ _ hnv))⟩
  | case18 a rest st h1 h2 h3 h4 h5 h =>
    intro st2 hrun
    rw [parseLoop.eq_def] at hrun
    rcases h with rfl | rfl <;> simp at hrun
  | case19 a rest st h1 h2 h3 h4 h5 h6 h =>
    intro st2 hrun
    rw [parseLoop.eq_def] at hrun
    rcases h with rfl | rfl <;> simp at hrun
  | case20 a rest st h1 h2 h3 h4 h5 h6 h7 ih =>
    intro st2 hrun
    rw [parseLoop.eq_def] at hrun
    simp only [if_neg h1, if_neg h2, if_neg h3, if_neg h4, if_neg h5, if_neg h6, if_neg h7] at hrun
    exact ⟨fun hnv => (ih st2 hrun).1 (noValidValueAfter_tail _ _ _ hnv),
      fun hnv => (ih st2 hrun).2.1 (noValidValueAfter_tail _ _ _ hnv),
      fun hnv => (ih st2 hrun).2.2 (noValidValueAfter_tail _ _ _ hnv)⟩

/-- C9. For every command-line argument list parsed by the CLI entry
point, whenever no occurrence of --port (or -p) is followed by a value
parsing to an integer strictly between 0 and 65536, the HTTP/SSE port
handed to the PenpotMcpServer constructor remains the default 4401;
likewise invalid --ws-port values leave the WebSocket port at 4402 and
invalid --repl-port values leave the REPL port at 4403. -/
theorem invalid_port_arguments_leave_default_ports (args : List String) (st : Ports)
    (h : mainServerPorts args = some st) :
    (noValidValueAfter isPortFlag args = true → st.port = 4401) ∧
    (noValidValueAfter isWsPortFlag args = true → st.wsPort = 4402) ∧
    (noValidValueAfter isReplPortFlag args = true → st.replPort = 4403) := by
  have hc := parseLoop_ports_characterization args defaultPorts st h
  exact ⟨fun hnv => hc.1 hnv, fun hnv => hc.2.1 hnv, fun hnv => hc.2.2 hnv⟩

/-- Witness for C9 at a concrete argument list: an out-of-range --port
value, a non-numeric --ws-port value and a value-less --repl-port all
leave the three defaults in place. -/
theorem invalid_port_arguments_leave_default_ports_witness :
    mainServerPorts ["--port", "99999", "--ws-port", "abc", "--repl-port"]
        = some ⟨4401, 4402, 4403⟩ ∧
      (⟨4401, 4402, 4403⟩ : Ports).port = 4401 ∧
      (⟨4401, 4402, 4403⟩ : Ports).wsPort = 4402 ∧
      (⟨4401, 4402, 4403⟩ : Ports).replPort = 4403 :=
  ⟨by decide,
    (invalid_port_arguments_leave_default_ports
      ["--port", "99999", "--ws-port", "abc", "--repl-port"] ⟨4401, 4402, 4403⟩
      (by decide)).1 (by decide),
    (invalid_port_arguments_leave_default_ports
      ["--port", "99999", "--ws-port", "abc", "--repl-port"] ⟨4401, 4402, 4403⟩
      (by decide)).2.1 (by decide),
    (invalid_port_arguments_leave_default_ports
      ["--port", "99999", "--ws-port", "abc", "--repl-port"] ⟨4401, 4402, 4403⟩
      (by decide)).2.2 (by decide)⟩

end Cli

namespace CreateShapeFromCss

theorem alphaTail_close : alphaTailMatches (')' :: []) = true := rfl

end CreateShapeFromCss

end PenpotMcp
